import Mathlib

/-!
Verification of the `freecad-sketch-reader` parsing pipeline.

The development shallowly embeds the Python modules
`freecad_sketch_reader/parser.py`, `freecad_sketch_reader/models.py` and
`freecad_sketch_reader/enums.py`.  XML element trees (the output of
`xml.etree.ElementTree.parse`) are modelled by the inductive `Xml`; Python
floats appearing in parsed records are modelled by `ℚ` (the document format
stores decimal text), while the derived geometry formulas of `models.py`
(which use `math.cos`, `math.sqrt`, ...) are modelled over `ℝ`.  Fallible
Python code (functions that can raise) is modelled with `Except PyError`.
-/

namespace FCSR

/-- An XML element: tag, attribute list, child elements.  Models the
`xml.etree.ElementTree.Element` values traversed by `parser.py`. -/
inductive Xml where
  | elem (tag : String) (attrs : List (String × String)) (children : List Xml)

/-- The tag of an element. -/
def Xml.tag : Xml → String
  | .elem t _ _ => t

/-- The attribute list of an element. -/
def Xml.attrs : Xml → List (String × String)
  | .elem _ a _ => a

/-- The child elements of an element. -/
def Xml.children : Xml → List Xml
  | .elem _ _ c => c

/-- Models `el.get(attr)`: attribute lookup returning `None` when absent. -/
def Xml.get (el : Xml) (attr : String) : Option String :=
  (el.attrs.find? (fun p => p.1 == attr)).map (fun p => p.2)

/-- Models `el.find(tag)`: the first child element with the given tag. -/
def Xml.find (el : Xml) (tag : String) : Option Xml :=
  el.children.find? (fun c => c.tag == tag)

/-- Models `el.findall(tag)`: all child elements with the given tag, in
document order. -/
def Xml.findall (el : Xml) (tag : String) : List Xml :=
  el.children.filter (fun c => c.tag == tag)

/-- The distinguishable exceptions raised by the parsing code:
`ValueError` from the unknown-geometry branch of `_parse_geometry_element`,
`ValueError` from `_require`, `AssertionError` from `_parse_constraints`,
`ValueError` from the `PointPos` enum constructor, `ValueError` from
`int()`/`float()` on malformed text, `TypeError` from calling a dataclass
constructor with an unknown keyword, and `KeyError` from a missing archive
entry. -/
inductive PyError where
  | unknownGeometryType (t : String)
  | missingChildElement (tag geomType : String)
  | unknownConstraintType (n : Int)
  | badPointPos (n : Int)
  | badNumber (s : String)
  | unexpectedKeyword (k : String)
  | keyError (k : String)
deriving Repr, DecidableEq

deriving instance DecidableEq for Except

/-- The value of a list of decimal digit characters. -/
def digitsToNat (cs : List Char) : Nat :=
  cs.foldl (fun a c => a * 10 + (c.toNat - 48)) 0

/-- `true` iff the list is non-empty and all characters are decimal digits. -/
def allDigits (cs : List Char) : Bool :=
  !cs.isEmpty && cs.all (fun c => c.isDigit)

/-- Models Python `int(s)` on the decimal integer notation used in the
document format: optional sign followed by digits; anything else raises
`ValueError` (modelled as `none`). -/
def pyInt (s : String) : Option Int :=
  match s.toList with
  | '-' :: rest => if allDigits rest then some (-(digitsToNat rest : Int)) else none
  | '+' :: rest => if allDigits rest then some ((digitsToNat rest : Int)) else none
  | cs => if allDigits cs then some ((digitsToNat cs : Int)) else none

/-- Splits a leading run of decimal digits off a character list. -/
def takeDigits : List Char → List Char × List Char
  | [] => ([], [])
  | c :: cs =>
    if c.isDigit then
      let p := takeDigits cs
      (c :: p.1, p.2)
    else ([], c :: cs)

/-- The exponent suffix of a float literal: optionally signed digits. -/
def expAux (mant : ℚ) (cs : List Char) : Option ℚ :=
  match cs with
  | '-' :: ds => if allDigits ds then some (mant / 10 ^ digitsToNat ds) else none
  | '+' :: ds => if allDigits ds then some (mant * 10 ^ digitsToNat ds) else none
  | ds => if allDigits ds then some (mant * 10 ^ digitsToNat ds) else none

/-- Applies an optional `e`/`E` exponent part to a parsed mantissa. -/
def applyExp (mant : ℚ) (cs : List Char) : Option ℚ :=
  match cs with
  | [] => some mant
  | 'e' :: rest => expAux mant rest
  | 'E' :: rest => expAux mant rest
  | _ => none

/-- An unsigned float literal: digits, optional fraction, optional
exponent; at least one digit must be present around the dot. -/
def parseUnsignedFloat (cs : List Char) : Option ℚ :=
  let p := takeDigits cs
  match p.2 with
  | '.' :: rest2 =>
    let q := takeDigits rest2
    if p.1.isEmpty && q.1.isEmpty then none
    else applyExp ((digitsToNat p.1 : ℚ) + (digitsToNat q.1 : ℚ) / 10 ^ q.1.length) q.2
  | rest =>
    if p.1.isEmpty then none
    else applyExp (digitsToNat p.1 : ℚ) rest

/-- Models Python `float(s)` on the decimal notation used in the document
format; malformed text raises `ValueError` (modelled as `none`). -/
def pyFloat (s : String) : Option ℚ :=
  match s.toList with
  | '-' :: cs => (parseUnsignedFloat cs).map (fun q => -q)
  | '+' :: cs => parseUnsignedFloat cs
  | cs => parseUnsignedFloat cs

/-- Models `_float(el, attr, default)` of `parser.py`: absent attribute
yields the default; a present but malformed attribute raises. -/
def _float (el : Xml) (attr : String) (dflt : ℚ) : Except PyError ℚ :=
  match el.get attr with
  | none => .ok dflt
  | some v =>
    match pyFloat v with
    | some q => .ok q
    | none => .error (.badNumber v)

/-- Models `_int(el, attr, default)` of `parser.py`. -/
def _int (el : Xml) (attr : String) (dflt : Int) : Except PyError Int :=
  match el.get attr with
  | none => .ok dflt
  | some v =>
    match pyInt v with
    | some n => .ok n
    | none => .error (.badNumber v)

/-- 3D vector, matching `App.Vector` (`models.py`, class `Vector`).
Instantiated at `ℚ` for parsed data and at `ℝ` for the derived
geometry math. -/
structure Vector (α : Type) where
  x : α
  y : α
  z : α
deriving Repr, DecidableEq

/-- `models.py` class `GeomPoint`. -/
structure GeomPoint (α : Type) where
  X : α
  Y : α
  Z : α
  Construction : Bool
deriving Repr, DecidableEq

/-- `models.py` class `GeomLine`. -/
structure GeomLine (α : Type) where
  Location : Vector α
  Direction : Vector α
  Construction : Bool
deriving Repr, DecidableEq

/-- `models.py` class `GeomLineSegment`. -/
structure GeomLineSegment (α : Type) where
  StartPoint : Vector α
  EndPoint : Vector α
  Construction : Bool
deriving Repr, DecidableEq

/-- `models.py` class `GeomCircle`. -/
structure GeomCircle (α : Type) where
  Center : Vector α
  Radius : α
  AngleXU : α
  Axis : Vector α
  Construction : Bool
deriving Repr, DecidableEq

/-- `models.py` class `GeomArcOfCircle` (stored fields only; the derived
`StartPoint`/`EndPoint` are defined below over `ℝ`). -/
structure GeomArcOfCircle (α : Type) where
  Center : Vector α
  Radius : α
  AngleXU : α
  Axis : Vector α
  StartAngle : α
  EndAngle : α
  Construction : Bool
deriving Repr, DecidableEq

/-- `models.py` class `GeomEllipse` (stored fields only). -/
structure GeomEllipse (α : Type) where
  Center : Vector α
  MajorRadius : α
  MinorRadius : α
  AngleXU : α
  Axis : Vector α
  Construction : Bool
deriving Repr, DecidableEq

/-- `models.py` class `GeomArcOfEllipse` (stored fields only). -/
structure GeomArcOfEllipse (α : Type) where
  Center : Vector α
  MajorRadius : α
  MinorRadius : α
  AngleXU : α
  Axis : Vector α
  StartAngle : α
  EndAngle : α
  Construction : Bool
deriving Repr, DecidableEq

/-- `models.py` class `GeomHyperbola`. -/
structure GeomHyperbola (α : Type) where
  Center : Vector α
  MajorRadius : α
  MinorRadius : α
  AngleXU : α
  Axis : Vector α
  Construction : Bool
deriving Repr, DecidableEq

/-- `models.py` class `GeomArcOfHyperbola` (stored fields only). -/
structure GeomArcOfHyperbola (α : Type) where
  Center : Vector α
  MajorRadius : α
  MinorRadius : α
  AngleXU : α
  Axis : Vector α
  StartAngle : α
  EndAngle : α
  Construction : Bool
deriving Repr, DecidableEq

/-- `models.py` class `GeomParabola`. -/
structure GeomParabola (α : Type) where
  Center : Vector α
  Focal : α
  AngleXU : α
  Axis : Vector α
  Construction : Bool
deriving Repr, DecidableEq

/-- `models.py` class `GeomArcOfParabola` (stored fields only). -/
structure GeomArcOfParabola (α : Type) where
  Center : Vector α
  Focal : α
  AngleXU : α
  Axis : Vector α
  StartAngle : α
  EndAngle : α
  Construction : Bool
deriving Repr, DecidableEq

/-- `models.py` class `BSplinePole`. -/
structure BSplinePole (α : Type) where
  Point : Vector α
  Weight : α
deriving Repr, DecidableEq

/-- `models.py` class `BSplineKnot`. -/
structure BSplineKnot (α : Type) where
  Value : α
  Mult : Int
deriving Repr, DecidableEq

/-- `models.py` class `GeomBSplineCurve` (stored fields only). -/
structure GeomBSplineCurve (α : Type) where
  Degree : Int
  IsPeriodic : Bool
  Poles : List (BSplinePole α)
  Knots : List (BSplineKnot α)
  Construction : Bool
deriving Repr, DecidableEq

/-- The closed union of the twelve geometry variants, named as in
`models.py` (`_GeometryType`, re-exported as `Geometry`). -/
inductive _GeometryType (α : Type) where
  | point : GeomPoint α → _GeometryType α
  | line : GeomLine α → _GeometryType α
  | lineSegment : GeomLineSegment α → _GeometryType α
  | circle : GeomCircle α → _GeometryType α
  | arcOfCircle : GeomArcOfCircle α → _GeometryType α
  | ellipse : GeomEllipse α → _GeometryType α
  | arcOfEllipse : GeomArcOfEllipse α → _GeometryType α
  | hyperbola : GeomHyperbola α → _GeometryType α
  | arcOfHyperbola : GeomArcOfHyperbola α → _GeometryType α
  | parabola : GeomParabola α → _GeometryType α
  | arcOfParabola : GeomArcOfParabola α → _GeometryType α
  | bSplineCurve : GeomBSplineCurve α → _GeometryType α
deriving Repr, DecidableEq

/-- `enums.py` class `PointPos` (`Sketcher::PointPos`). -/
inductive PointPos where
  | none
  | start
  | «end»
  | mid
deriving Repr, DecidableEq

/-- The `PointPos(n)` IntEnum constructor viewed as a partial lookup:
codes outside `{0, 1, 2, 3}` raise `ValueError` (modelled as `none`). -/
def PointPos.ofInt (n : Int) : Option PointPos :=
  if n = 0 then some PointPos.none
  else if n = 1 then some PointPos.start
  else if n = 2 then some PointPos.«end»
  else if n = 3 then some PointPos.mid
  else Option.none

/-- `enums.py` class `ConstraintType` (`Sketcher::ConstraintType`),
codes 0–19. -/
inductive ConstraintType where
  | NONE
  | Coincident
  | Horizontal
  | Vertical
  | Parallel
  | Tangent
  | Distance
  | DistanceX
  | DistanceY
  | Angle
  | Perpendicular
  | Radius
  | Equal
  | PointOnObject
  | Symmetric
  | InternalAlignment
  | SnellsLaw
  | Block
  | Diameter
  | Weight
deriving Repr, DecidableEq

/-- The `ConstraintType(n)` IntEnum constructor viewed as a partial
lookup: codes outside 0–19 raise `ValueError` (modelled as `none`). -/
def ConstraintType.ofInt (n : Int) : Option ConstraintType :=
  if n = 0 then some .NONE
  else if n = 1 then some .Coincident
  else if n = 2 then some .Horizontal
  else if n = 3 then some .Vertical
  else if n = 4 then some .Parallel
  else if n = 5 then some .Tangent
  else if n = 6 then some .Distance
  else if n = 7 then some .DistanceX
  else if n = 8 then some .DistanceY
  else if n = 9 then some .Angle
  else if n = 10 then some .Perpendicular
  else if n = 11 then some .Radius
  else if n = 12 then some .Equal
  else if n = 13 then some .PointOnObject
  else if n = 14 then some .Symmetric
  else if n = 15 then some .InternalAlignment
  else if n = 16 then some .SnellsLaw
  else if n = 17 then some .Block
  else if n = 18 then some .Diameter
  else if n = 19 then some .Weight
  else Option.none

/-- `enums.py` table `CONSTRAINT_TYPE_NAMES`. -/
def CONSTRAINT_TYPE_NAMES : ConstraintType → String
  | .NONE => "None"
  | .Coincident => "Coincident"
  | .Horizontal => "Horizontal"
  | .Vertical => "Vertical"
  | .Parallel => "Parallel"
  | .Tangent => "Tangent"
  | .Distance => "Distance"
  | .DistanceX => "DistanceX"
  | .DistanceY => "DistanceY"
  | .Angle => "Angle"
  | .Perpendicular => "Perpendicular"
  | .Radius => "Radius"
  | .Equal => "Equal"
  | .PointOnObject => "PointOnObject"
  | .Symmetric => "Symmetric"
  | .InternalAlignment => "InternalAlignment"
  | .SnellsLaw => "SnellsLaw"
  | .Block => "Block"
  | .Diameter => "Diameter"
  | .Weight => "Weight"

/-- `models.py` class `Constraint`. -/
structure Constraint where
  «Type» : String
  Name : String
  Value : ℚ
  First : Int
  FirstPos : PointPos
  Second : Int
  SecondPos : PointPos
  Third : Int
  ThirdPos : PointPos
  Driving : Bool
  InVirtualSpace : Bool
  IsActive : Bool
  LabelDistance : ℚ
  LabelPosition : ℚ
deriving Repr, DecidableEq

/-- `models.py` class `Sketch` (a `slots=True` dataclass), with exactly
the fields declared there: `Name`, `Label`, `Geometry`, `Constraints`,
`ExternalGeo`, `FullyConstrained` — it declares no `ExternalGeoDict`
field. -/
structure Sketch where
  Name : String := ""
  Label : String := ""
  Geometry : List (_GeometryType ℚ) := []
  Constraints : List Constraint := []
  ExternalGeo : List (_GeometryType ℚ) := []
  FullyConstrained : Bool := false
deriving Repr, DecidableEq

/-- The field names of the `Sketch` dataclass in `models.py`
(lines 491–500): the keywords its generated `__init__` accepts. -/
def Sketch.fieldNames : List String :=
  ["Name", "Label", "Geometry", "Constraints", "ExternalGeo", "FullyConstrained"]

/-- Models `_parse_construction(geom_el)` of `parser.py`. -/
def _parse_construction (geom_el : Xml) : Bool :=
  match geom_el.find "Construction" with
  | some cons_el => (cons_el.get "value").getD "0" == "1"
  | Option.none => false

/-- Models the inner `_require(tag)` of `_parse_geometry_element`: a
missing required child raises `ValueError`. -/
def _require (geom_el : Xml) (tag geomType : String) : Except PyError Xml :=
  match geom_el.find tag with
  | some el => .ok el
  | Option.none => .error (.missingChildElement tag geomType)

/-- Models `_axis_from(el)` of `parser.py`. -/
def _axis_from (el : Xml) : Except PyError (Vector ℚ) := do
  let nx ← _float el "NormalX" 0
  let ny ← _float el "NormalY" 0
  let nz ← _float el "NormalZ" 1
  return ⟨nx, ny, nz⟩

/-- The accumulation loop over `<Pole>` / `<Knot>` children in the
`Part::GeomBSplineCurve` branch of `_parse_geometry_element`. -/
def _bspline_children : List Xml → List (BSplinePole ℚ) → List (BSplineKnot ℚ) →
    Except PyError (List (BSplinePole ℚ) × List (BSplineKnot ℚ))
  | [], poles, knots => .ok (poles, knots)
  | child :: rest, poles, knots =>
    if child.tag = "Pole" then do
      let x ← _float child "X" 0
      let y ← _float child "Y" 0
      let z ← _float child "Z" 0
      let w ← _float child "Weight" 1
      _bspline_children rest (poles ++ [⟨⟨x, y, z⟩, w⟩]) knots
    else if child.tag = "Knot" then do
      let v ← _float child "Value" 0
      let m ← _int child "Mult" 1
      _bspline_children rest poles (knots ++ [⟨v, m⟩])
    else
      _bspline_children rest poles knots

/-- The twelve geometry type tags recognised by
`_parse_geometry_element`. -/
def knownGeometryTags : List String :=
  ["Part::GeomPoint", "Part::GeomLine", "Part::GeomLineSegment",
   "Part::GeomCircle", "Part::GeomArcOfCircle", "Part::GeomEllipse",
   "Part::GeomArcOfEllipse", "Part::GeomHyperbola", "Part::GeomArcOfHyperbola",
   "Part::GeomParabola", "Part::GeomArcOfParabola", "Part::GeomBSplineCurve"]

/-- Models `_parse_geometry_element(geom_el)` of `parser.py`: dispatch on
the `type` attribute; an unrecognised tag raises `ValueError`
("Unknown geometry type"). -/
def _parse_geometry_element (geom_el : Xml) : Except PyError (_GeometryType ℚ) :=
  let geom_type := (geom_el.get "type").getD ""
  let construction := _parse_construction geom_el
  if geom_type = "Part::GeomPoint" then do
    let pt_el ← _require geom_el "GeomPoint" geom_type
    let x ← _float pt_el "X" 0
    let y ← _float pt_el "Y" 0
    let z ← _float pt_el "Z" 0
    return .point ⟨x, y, z, construction⟩
  else if geom_type = "Part::GeomLine" then do
    let line_el ← _require geom_el "GeomLine" geom_type
    let px ← _float line_el "PosX" 0
    let py ← _float line_el "PosY" 0
    let pz ← _float line_el "PosZ" 0
    let dx ← _float line_el "DirX" 0
    let dy ← _float line_el "DirY" 0
    let dz ← _float line_el "DirZ" 0
    return .line ⟨⟨px, py, pz⟩, ⟨dx, dy, dz⟩, construction⟩
  else if geom_type = "Part::GeomLineSegment" then do
    let ls_el ← _require geom_el "LineSegment" geom_type
    let sx ← _float ls_el "StartX" 0
    let sy ← _float ls_el "StartY" 0
    let sz ← _float ls_el "StartZ" 0
    let ex ← _float ls_el "EndX" 0
    let ey ← _float ls_el "EndY" 0
    let ez ← _float ls_el "EndZ" 0
    return .lineSegment ⟨⟨sx, sy, sz⟩, ⟨ex, ey, ez⟩, construction⟩
  else if geom_type = "Part::GeomCircle" then do
    let c_el ← _require geom_el "Circle" geom_type
    let cx ← _float c_el "CenterX" 0
    let cy ← _float c_el "CenterY" 0
    let cz ← _float c_el "CenterZ" 0
    let r ← _float c_el "Radius" 0
    let axu ← _float c_el "AngleXU" 0
    let ax ← _axis_from c_el
    return .circle ⟨⟨cx, cy, cz⟩, r, axu, ax, construction⟩
  else if geom_type = "Part::GeomArcOfCircle" then do
    let a_el ← _require geom_el "ArcOfCircle" geom_type
    let cx ← _float a_el "CenterX" 0
    let cy ← _float a_el "CenterY" 0
    let cz ← _float a_el "CenterZ" 0
    let r ← _float a_el "Radius" 0
    let axu ← _float a_el "AngleXU" 0
    let ax ← _axis_from a_el
    let sa ← _float a_el "StartAngle" 0
    let ea ← _float a_el "EndAngle" 0
    return .arcOfCircle ⟨⟨cx, cy, cz⟩, r, axu, ax, sa, ea, construction⟩
  else if geom_type = "Part::GeomEllipse" then do
    let e_el ← _require geom_el "Ellipse" geom_type
    let cx ← _float e_el "CenterX" 0
    let cy ← _float e_el "CenterY" 0
    let cz ← _float e_el "CenterZ" 0
    let maj ← _float e_el "MajorRadius" 0
    let mino ← _float e_el "MinorRadius" 0
    let axu ← _float e_el "AngleXU" 0
    let ax ← _axis_from e_el
    return .ellipse ⟨⟨cx, cy, cz⟩, maj, mino, axu, ax, construction⟩
  else if geom_type = "Part::GeomArcOfEllipse" then do
    let ae_el ← _require geom_el "ArcOfEllipse" geom_type
    let cx ← _float ae_el "CenterX" 0
    let cy ← _float ae_el "CenterY" 0
    let cz ← _float ae_el "CenterZ" 0
    let maj ← _float ae_el "MajorRadius" 0
    let mino ← _float ae_el "MinorRadius" 0
    let axu ← _float ae_el "AngleXU" 0
    let ax ← _axis_from ae_el
    let sa ← _float ae_el "StartAngle" 0
    let ea ← _float ae_el "EndAngle" 0
    return .arcOfEllipse ⟨⟨cx, cy, cz⟩, maj, mino, axu, ax, sa, ea, construction⟩
  else if geom_type = "Part::GeomHyperbola" then do
    let h_el ← _require geom_el "Hyperbola" geom_type
    let cx ← _float h_el "CenterX" 0
    let cy ← _float h_el "CenterY" 0
    let cz ← _float h_el "CenterZ" 0
    let maj ← _float h_el "MajorRadius" 0
    let mino ← _float h_el "MinorRadius" 0
    let axu ← _float h_el "AngleXU" 0
    let ax ← _axis_from h_el
    return .hyperbola ⟨⟨cx, cy, cz⟩, maj, mino, axu, ax, construction⟩
  else if geom_type = "Part::GeomArcOfHyperbola" then do
    let ah_el ← _require geom_el "ArcOfHyperbola" geom_type
    let cx ← _float ah_el "CenterX" 0
    let cy ← _float ah_el "CenterY" 0
    let cz ← _float ah_el "CenterZ" 0
    let maj ← _float ah_el "MajorRadius" 0
    let mino ← _float ah_el "MinorRadius" 0
    let axu ← _float ah_el "AngleXU" 0
    let ax ← _axis_from ah_el
    let sa ← _float ah_el "StartAngle" 0
    let ea ← _float ah_el "EndAngle" 0
    return .arcOfHyperbola ⟨⟨cx, cy, cz⟩, maj, mino, axu, ax, sa, ea, construction⟩
  else if geom_type = "Part::GeomParabola" then do
    let p_el ← _require geom_el "Parabola" geom_type
    let cx ← _float p_el "CenterX" 0
    let cy ← _float p_el "CenterY" 0
    let cz ← _float p_el "CenterZ" 0
    let f ← _float p_el "Focal" 0
    let axu ← _float p_el "AngleXU" 0
    let ax ← _axis_from p_el
    return .parabola ⟨⟨cx, cy, cz⟩, f, axu, ax, construction⟩
  else if geom_type = "Part::GeomArcOfParabola" then do
    let ap_el ← _require geom_el "ArcOfParabola" geom_type
    let cx ← _float ap_el "CenterX" 0
    let cy ← _float ap_el "CenterY" 0
    let cz ← _float ap_el "CenterZ" 0
    let f ← _float ap_el "Focal" 0
    let axu ← _float ap_el "AngleXU" 0
    let ax ← _axis_from ap_el
    let sa ← _float ap_el "StartAngle" 0
    let ea ← _float ap_el "EndAngle" 0
    return .arcOfParabola ⟨⟨cx, cy, cz⟩, f, axu, ax, sa, ea, construction⟩
  else if geom_type = "Part::GeomBSplineCurve" then do
    let bs_el ← _require geom_el "BSplineCurve" geom_type
    let pk ← _bspline_children bs_el.children [] []
    let deg ← _int bs_el "Degree" 0
    return .bSplineCurve ⟨deg, (bs_el.get "IsPeriodic").getD "0" == "1", pk.1, pk.2, construction⟩
  else
    .error (.unknownGeometryType geom_type)

/-- Python `dict` assignment `d[k] = v` on an association-list model of
the dict: overwrite in place when the key exists (insertion order
preserved), append otherwise. -/
def dictInsert {κ β : Type} [BEq κ] : List (κ × β) → κ → β → List (κ × β)
  | [], k, v => [(k, v)]
  | p :: rest, k, v =>
    if p.1 == k then (k, v) :: rest else p :: dictInsert rest k v

/-- Python `dict` lookup `d[k]` / `d.get(k)` on the same model. -/
def alookup {κ β : Type} [BEq κ] : List (κ × β) → κ → Option β
  | [], _ => Option.none
  | p :: rest, k => if p.1 == k then some p.2 else alookup rest k

/-- The append loop of `_parse_geometry_list`. -/
def _parse_geometry_list_aux : List Xml → List (_GeometryType ℚ) →
    Except PyError (List (_GeometryType ℚ))
  | [], acc => .ok acc
  | g :: rest, acc => do
    let v ← _parse_geometry_element g
    _parse_geometry_list_aux rest (acc ++ [v])

/-- Models `_parse_geometry_list(prop_el)` of `parser.py`. -/
def _parse_geometry_list (prop_el : Xml) : Except PyError (List (_GeometryType ℚ)) :=
  match prop_el.find "GeometryList" with
  | Option.none => .ok []
  | some gl => _parse_geometry_list_aux (gl.findall "Geometry") []

/-- The dict-building loop of `_parse_geometry_dict`: a `<Geometry>`
element without an `id` attribute is skipped; with an `id`, the id text is
converted with `int()` and the decoded element stored under it. -/
def _parse_geometry_dict_aux : List Xml → List (Int × _GeometryType ℚ) →
    Except PyError (List (Int × _GeometryType ℚ))
  | [], acc => .ok acc
  | g :: rest, acc =>
    match g.get "id" with
    | Option.none => _parse_geometry_dict_aux rest acc
    | some s =>
      match pyInt s with
      | Option.none => .error (.badNumber s)
      | some k => do
        let v ← _parse_geometry_element g
        _parse_geometry_dict_aux rest (dictInsert acc k v)

/-- Models `_parse_geometry_dict(prop_el)` of `parser.py`. -/
def _parse_geometry_dict (prop_el : Xml) : Except PyError (List (Int × _GeometryType ℚ)) :=
  match prop_el.find "GeometryList" with
  | Option.none => .ok []
  | some gl => _parse_geometry_dict_aux (gl.findall "Geometry") []

/-- The `<Geometry>` children a `<GeometryList>` property contributes, in
document order (empty when the `<GeometryList>` child is absent). -/
def geomChildren (prop_el : Xml) : List Xml :=
  match prop_el.find "GeometryList" with
  | Option.none => []
  | some gl => gl.findall "Geometry"

/-- The `ConstraintType(type_int)` lookup inside `_parse_constraints`:
the `ValueError` of the IntEnum constructor is caught and re-raised as
`AssertionError` ("Unknown constraint type"). -/
def lookupConstraintType (n : Int) : Except PyError ConstraintType :=
  match ConstraintType.ofInt n with
  | some t => .ok t
  | Option.none => .error (.unknownConstraintType n)

/-- The `PointPos(n)` lookup inside `_parse_constraints`: out-of-range
codes raise the enum's `ValueError`, which is not caught. -/
def intPointPos (n : Int) : Except PyError PointPos :=
  match PointPos.ofInt n with
  | some p => .ok p
  | Option.none => .error (.badPointPos n)

/-- The decoding of one `<Constrain>` element in the loop body of
`_parse_constraints` (`parser.py` lines 288–312), with field reads in
source evaluation order. -/
def _parse_constraint (c_el : Xml) : Except PyError Constraint := do
  let type_int ← _int c_el "Type" 0
  let type_enum ← lookupConstraintType type_int
  let type_str := CONSTRAINT_TYPE_NAMES type_enum
  let name := (c_el.get "Name").getD ""
  let value ← _float c_el "Value" 0
  let first ← _int c_el "First" (-2000)
  let firstPosN ← _int c_el "FirstPos" 0
  let firstPos ← intPointPos firstPosN
  let second ← _int c_el "Second" (-2000)
  let secondPosN ← _int c_el "SecondPos" 0
  let secondPos ← intPointPos secondPosN
  let third ← _int c_el "Third" (-2000)
  let thirdPosN ← _int c_el "ThirdPos" 0
  let thirdPos ← intPointPos thirdPosN
  let driving := (c_el.get "IsDriving").getD "1" == "1"
  let inVirtualSpace := (c_el.get "IsInVirtualSpace").getD "0" == "1"
  let isActive := (c_el.get "IsActive").getD "1" == "1"
  let labelDistance ← _float c_el "LabelDistance" 10
  let labelPosition ← _float c_el "LabelPosition" 0
  return { «Type» := type_str, Name := name, Value := value,
           First := first, FirstPos := firstPos,
           Second := second, SecondPos := secondPos,
           Third := third, ThirdPos := thirdPos,
           Driving := driving, InVirtualSpace := inVirtualSpace,
           IsActive := isActive, LabelDistance := labelDistance,
           LabelPosition := labelPosition }

/-- The append loop of `_parse_constraints`. -/
def _parse_constraints_aux : List Xml → List Constraint → Except PyError (List Constraint)
  | [], acc => .ok acc
  | c :: rest, acc => do
    let v ← _parse_constraint c
    _parse_constraints_aux rest (acc ++ [v])

/-- Models `_parse_constraints(prop_el)` of `parser.py`. -/
def _parse_constraints (prop_el : Xml) : Except PyError (List Constraint) :=
  match prop_el.find "ConstraintList" with
  | Option.none => .ok []
  | some cl => _parse_constraints_aux (cl.findall "Constrain") []

/-- Models `_find_property(properties_el, name)` of `parser.py`. -/
def _find_property (properties_el : Xml) (name : String) : Option Xml :=
  properties_el.children.find?
    (fun prop => prop.tag == "Property" && prop.get "name" == some name)

/-- The keyword arguments the `Sketch(...)` call at the end of
`_parse_sketch_object` passes (`parser.py` lines 364–372). -/
def _parse_sketch_object_kwargs : List String :=
  ["Name", "Label", "Geometry", "Constraints", "ExternalGeo",
   "ExternalGeoDict", "FullyConstrained"]

/-- Models `_parse_sketch_object(obj_data_el, obj_name)` of `parser.py`.
When the `<Properties>` child is absent, `Sketch(Name=obj_name)` is
returned.  Otherwise all property decoding runs (in source order), and
then the source calls
`Sketch(..., ExternalGeoDict=external_geo_dict, ...)`; the `Sketch`
dataclass (`slots=True`) declares no `ExternalGeoDict` field, so that
constructor call raises `TypeError` for an unexpected keyword argument. -/
def _parse_sketch_object (obj_data_el : Xml) (obj_name : String) : Except PyError Sketch :=
  match obj_data_el.find "Properties" with
  | Option.none => .ok { Name := obj_name }
  | some props_el => do
    let _label :=
      match _find_property props_el "Label" with
      | some label_prop =>
        match label_prop.find "String" with
        | some str_el => (str_el.get "value").getD obj_name
        | Option.none => obj_name
      | Option.none => obj_name
    let _geometry ←
      match _find_property props_el "Geometry" with
      | some geom_prop => _parse_geometry_list geom_prop
      | Option.none => Except.ok []
    let _external_geo ←
      match _find_property props_el "ExternalGeo" with
      | some ext_prop => _parse_geometry_list ext_prop
      | Option.none => Except.ok []
    let _external_geo_dict ←
      match _find_property props_el "ExternalGeo" with
      | some ext_prop => _parse_geometry_dict ext_prop
      | Option.none => Except.ok []
    let _constraints ←
      match _find_property props_el "Constraints" with
      | some cons_prop => _parse_constraints cons_prop
      | Option.none => Except.ok []
    let _fully_constrained :=
      match _find_property props_el "FullyConstrained" with
      | some fc_prop =>
        match fc_prop.find "Bool" with
        | some bool_el => (bool_el.get "value").getD "false" == "true"
        | Option.none => false
      | Option.none => false
    .error (.unexpectedKeyword "ExternalGeoDict")

/-- Models `_sketch_object_names(root)` of `parser.py` (a Python `set`;
only membership is ever used, so it is modelled as the list of qualifying
names in encounter order). -/
def _sketch_object_names (root : Xml) : List String :=
  match root.find "Objects" with
  | Option.none => []
  | some objects_el =>
    (objects_el.findall "Object").foldl
      (fun acc obj =>
        if obj.get "type" == some "Sketcher::SketchObject" then
          match obj.get "name" with
          | some n => if n ≠ "" then acc ++ [n] else acc
          | Option.none => acc
        else acc) []

/-- The `<Object>` elements of the `<ObjectData>` block, in document
order (empty when the block is absent). -/
def objectDataObjects (root : Xml) : List Xml :=
  match root.find "ObjectData" with
  | Option.none => []
  | some object_data => object_data.findall "Object"

/-- The dict-building loop of `read_sketches_from_xml`. -/
def read_sketches_from_xml_aux : List Xml → List String → List (String × Sketch) →
    Except PyError (List (String × Sketch))
  | [], _, acc => .ok acc
  | obj :: rest, names, acc =>
    let name := (obj.get "name").getD ""
    if name ∈ names then do
      let sk ← _parse_sketch_object obj name
      read_sketches_from_xml_aux rest names (dictInsert acc name sk)
    else
      read_sketches_from_xml_aux rest names acc

/-- Models `read_sketches_from_xml(source)` of `parser.py`, taking the
already-materialised element tree (the result of `ET.parse`). -/
def read_sketches_from_xml (root : Xml) : Except PyError (List (String × Sketch)) :=
  let sketch_names := _sketch_object_names root
  if sketch_names.isEmpty then .ok []
  else
    match root.find "ObjectData" with
    | Option.none => .ok []
    | some object_data =>
      read_sketches_from_xml_aux (object_data.findall "Object") sketch_names []

/-- Models `read_sketches(path)` of `parser.py`.  The `.FCStd` container
is modelled as its entry table (entry name to the element tree its bytes
parse to); `zf.open("Document.xml")` raises `KeyError` when the entry is
absent, and otherwise the document is handed to `read_sketches_from_xml`
unchanged. -/
def read_sketches (archive : List (String × Xml)) : Except PyError (List (String × Sketch)) :=
  match alookup archive "Document.xml" with
  | Option.none => .error (.keyError "Document.xml")
  | some doc => read_sketches_from_xml doc

/-- Models `_arc_point` of `models.py`: the point on a circular arc at
parameter `angle`, with the orientation angle folded additively into the
parameter and the mirror sign applied to the sine term only. -/
noncomputable def _arc_point (center_x center_y center_z radius angle angle_xu normal_z : ℝ) :
    Vector ℝ :=
  let effective_angle := angle_xu + angle
  let x := center_x + radius * Real.cos effective_angle
  let y := center_y + radius * Real.sin effective_angle * (if 0 ≤ normal_z then 1 else -1)
  ⟨x, y, center_z⟩

/-- `GeomArcOfCircle.StartPoint` of `models.py`. -/
noncomputable def GeomArcOfCircle.StartPoint (a : GeomArcOfCircle ℝ) : Vector ℝ :=
  _arc_point a.Center.x a.Center.y a.Center.z a.Radius a.StartAngle a.AngleXU a.Axis.z

/-- `GeomArcOfCircle.EndPoint` of `models.py`. -/
noncomputable def GeomArcOfCircle.EndPoint (a : GeomArcOfCircle ℝ) : Vector ℝ :=
  _arc_point a.Center.x a.Center.y a.Center.z a.Radius a.EndAngle a.AngleXU a.Axis.z

/-- `GeomEllipse.Focal` of `models.py`:
`math.sqrt(abs(MajorRadius**2 - MinorRadius**2))`. -/
noncomputable def GeomEllipse.Focal (e : GeomEllipse ℝ) : ℝ :=
  Real.sqrt |e.MajorRadius ^ 2 - e.MinorRadius ^ 2|

/-- `GeomEllipse.Focus1` of `models.py`. -/
noncomputable def GeomEllipse.Focus1 (e : GeomEllipse ℝ) : Vector ℝ :=
  ⟨e.Center.x + e.Focal * Real.cos e.AngleXU,
   e.Center.y + e.Focal * Real.sin e.AngleXU,
   e.Center.z⟩

/-- `GeomEllipse.Focus2` of `models.py`. -/
noncomputable def GeomEllipse.Focus2 (e : GeomEllipse ℝ) : Vector ℝ :=
  ⟨e.Center.x - e.Focal * Real.cos e.AngleXU,
   e.Center.y - e.Focal * Real.sin e.AngleXU,
   e.Center.z⟩

/-! ## General lemmas about the embedding's building blocks -/

/-- Inversion of a successful `Except` bind. -/
theorem exbind_ok {ε α β : Type} {x : Except ε α} {f : α → Except ε β} {b : β} :
    (x >>= f) = .ok b ↔ ∃ a, x = .ok a ∧ f a = .ok b := by
  cases x <;> simp [Bind.bind, Except.bind]

/-- Inversion of a successful `Except` bind, `Except.bind` form. -/
theorem exbind_ok' {ε α β : Type} {x : Except ε α} {f : α → Except ε β} {b : β} :
    Except.bind x f = .ok b ↔ ∃ a, x = .ok a ∧ f a = .ok b := by
  cases x <;> simp [Except.bind]

/-- Lookup of the assigned key after a dict assignment. -/
theorem alookup_dictInsert_self {κ β : Type} [BEq κ] [LawfulBEq κ]
    (d : List (κ × β)) (k : κ) (v : β) :
    alookup (dictInsert d k v) k = some v := by
  induction d with
  | nil => simp [dictInsert, alookup]
  | cons p rest ih =>
    by_cases hp : p.1 = k
    · simp [dictInsert, alookup, hp]
    · simp [dictInsert, alookup, hp, ih]

/-- Lookup of a different key is unchanged by a dict assignment. -/
theorem alookup_dictInsert_ne {κ β : Type} [BEq κ] [LawfulBEq κ]
    (d : List (κ × β)) (k nm : κ) (v : β) (h : nm ≠ k) :
    alookup (dictInsert d k v) nm = alookup d nm := by
  induction d with
  | nil => simp [dictInsert, alookup, Ne.symm h]
  | cons p rest ih =>
    by_cases hp : p.1 = k
    · simp [dictInsert, alookup, hp, Ne.symm h]
    · simp only [dictInsert]
      rw [if_neg (by simp [hp])]
      by_cases hpn : p.1 = nm <;> simp [alookup, hpn, ih]

/-- `intPointPos` succeeds exactly when the enum lookup does. -/
theorem intPointPos_ok {n : Int} {p : PointPos} :
    intPointPos n = .ok p ↔ PointPos.ofInt n = some p := by
  unfold intPointPos
  cases h : PointPos.ofInt n <;> simp [h]

/-- `lookupConstraintType` succeeds exactly when the enum lookup does. -/
theorem lookupConstraintType_ok {n : Int} {t : ConstraintType} :
    lookupConstraintType n = .ok t ↔ ConstraintType.ofInt n = some t := by
  unfold lookupConstraintType
  cases h : ConstraintType.ofInt n <;> simp [h]

/-- Point-position codes outside `{0, 1, 2, 3}` are rejected. -/
theorem pointPos_ofInt_eq_none {n : Int} (h : n < 0 ∨ 3 < n) :
    PointPos.ofInt n = Option.none := by
  unfold PointPos.ofInt
  repeat rw [if_neg (by omega)]

/-- A successful point-position lookup means the code was in range. -/
theorem pointPos_ofInt_range {n : Int} {p : PointPos} (h : PointPos.ofInt n = some p) :
    0 ≤ n ∧ n ≤ 3 := by
  by_contra hc
  rw [pointPos_ofInt_eq_none (by omega)] at h
  exact Option.noConfusion h

/-- Constraint-type codes outside 0–19 are rejected. -/
theorem constraintType_ofInt_eq_none {n : Int} (h : n < 0 ∨ 19 < n) :
    ConstraintType.ofInt n = Option.none := by
  unfold ConstraintType.ofInt
  repeat rw [if_neg (by omega)]

/-- A successful constraint-type lookup means the code was in range. -/
theorem constraintType_ofInt_range {n : Int} {t : ConstraintType}
    (h : ConstraintType.ofInt n = some t) : 0 ≤ n ∧ n ≤ 19 := by
  by_contra hc
  rw [constraintType_ofInt_eq_none (by omega)] at h
  exact Option.noConfusion h

/-- An absent attribute makes `_int` return its default. -/
theorem _int_absent (el : Xml) (attr : String) (dflt : Int)
    (h : el.get attr = Option.none) : _int el attr dflt = .ok dflt := by
  simp [_int, h]

/-- An absent attribute makes `_float` return its default. -/
theorem _float_absent (el : Xml) (attr : String) (dflt : ℚ)
    (h : el.get attr = Option.none) : _float el attr dflt = .ok dflt := by
  simp [_float, h]

/-- A present attribute that parses makes `_int` return its value. -/
theorem _int_present (el : Xml) (attr : String) (dflt n : Int) (s : String)
    (hg : el.get attr = some s) (hp : pyInt s = some n) : _int el attr dflt = .ok n := by
  simp [_int, hg, hp]

/-- Bind of an `ok` value reduces to the continuation. -/
theorem exbind_ok_left {ε α β : Type} {x : α} {f : α → Except ε β} :
    ((Except.ok x : Except ε α) >>= f) = f x := rfl

/-- Bind of an `error` propagates the error. -/
theorem exbind_err_left {ε α β : Type} {e : ε} {f : α → Except ε β} :
    ((Except.error e : Except ε α) >>= f) = .error e := rfl

/-- A failed enum lookup raises the unknown-constraint-type error. -/
theorem lookupConstraintType_err {n : Int} (h : ConstraintType.ofInt n = Option.none) :
    lookupConstraintType n = .error (.unknownConstraintType n) := by
  simp [lookupConstraintType, h]

/-- Full inversion of a successful single-constraint decode: every field
of the produced record is characterised by the source attribute reads. -/
theorem _parse_constraint_ok_inv {c_el : Xml} {c : Constraint}
    (h : _parse_constraint c_el = .ok c) :
    ∃ ti te fpn spn tpn,
      _int c_el "Type" 0 = .ok ti ∧
      ConstraintType.ofInt ti = some te ∧
      c.«Type» = CONSTRAINT_TYPE_NAMES te ∧
      c.Name = (c_el.get "Name").getD "" ∧
      _float c_el "Value" 0 = .ok c.Value ∧
      _int c_el "First" (-2000) = .ok c.First ∧
      _int c_el "FirstPos" 0 = .ok fpn ∧
      PointPos.ofInt fpn = some c.FirstPos ∧
      _int c_el "Second" (-2000) = .ok c.Second ∧
      _int c_el "SecondPos" 0 = .ok spn ∧
      PointPos.ofInt spn = some c.SecondPos ∧
      _int c_el "Third" (-2000) = .ok c.Third ∧
      _int c_el "ThirdPos" 0 = .ok tpn ∧
      PointPos.ofInt tpn = some c.ThirdPos ∧
      c.Driving = ((c_el.get "IsDriving").getD "1" == "1") ∧
      c.InVirtualSpace = ((c_el.get "IsInVirtualSpace").getD "0" == "1") ∧
      c.IsActive = ((c_el.get "IsActive").getD "1" == "1") ∧
      _float c_el "LabelDistance" 10 = .ok c.LabelDistance ∧
      _float c_el "LabelPosition" 0 = .ok c.LabelPosition := by
  unfold _parse_constraint at h
  simp only [exbind_ok, exbind_ok', pure, Except.pure, Except.ok.injEq] at h
  obtain ⟨ti, hti, te, hte, v, hv, f1, hf1, fpn, hfpn, fp, hfp, s2, hs2, spn, hspn,
    sp, hsp, t3, ht3, tpn, htpn, tp, htp, ld, hld, lp, hlp, hc⟩ := h
  subst hc
  exact ⟨ti, te, fpn, spn, tpn, hti, lookupConstraintType_ok.mp hte, rfl, rfl, hv, hf1,
    hfpn, intPointPos_ok.mp hfp, hs2, hspn, intPointPos_ok.mp hsp, ht3, htpn,
    intPointPos_ok.mp htp, rfl, rfl, rfl, hld, hlp⟩

/-- The geometry-list loop appends, in order, the decode of every
`<Geometry>` child. -/
theorem _parse_geometry_list_aux_ok {cs : List Xml} {acc gs : List (_GeometryType ℚ)}
    (h : _parse_geometry_list_aux cs acc = .ok gs) :
    ∃ gs', gs = acc ++ gs' ∧
      List.Forall₂ (fun g v => _parse_geometry_element g = .ok v) cs gs' := by
  induction cs generalizing acc with
  | nil =>
    simp only [_parse_geometry_list_aux, Except.ok.injEq] at h
    exact ⟨[], by simp [h], List.Forall₂.nil⟩
  | cons g rest ih =>
    unfold _parse_geometry_list_aux at h
    simp only [exbind_ok, exbind_ok'] at h
    obtain ⟨v, hv, h⟩ := h
    obtain ⟨gs', hgs, hf⟩ := ih h
    exact ⟨v :: gs', by simp [hgs], List.Forall₂.cons hv hf⟩

/-- A key is present after the geometry-dict loop iff it was present
before or some remaining child carries that stored id. -/
theorem _parse_geometry_dict_aux_keys {cs : List Xml} {acc d : List (Int × _GeometryType ℚ)}
    (h : _parse_geometry_dict_aux cs acc = .ok d) (k : Int) :
    (alookup d k).isSome = true ↔
      ((alookup acc k).isSome = true ∨
        ∃ g ∈ cs, ∃ s, g.get "id" = some s ∧ pyInt s = some k) := by
  induction cs generalizing acc with
  | nil =>
    simp only [_parse_geometry_dict_aux, Except.ok.injEq] at h
    subst h; simp
  | cons g rest ih =>
    unfold _parse_geometry_dict_aux at h
    cases hid : g.get "id" with
    | none =>
      simp only [hid] at h
      rw [ih h]
      constructor
      · rintro (ha | ⟨g', hg', hs⟩)
        · exact Or.inl ha
        · exact Or.inr ⟨g', List.mem_cons_of_mem _ hg', hs⟩
      · rintro (ha | ⟨g', hg', s, hgs, hps⟩)
        · exact Or.inl ha
        · rcases List.mem_cons.mp hg' with rfl | hg''
          · rw [hid] at hgs; exact Option.noConfusion hgs
          · exact Or.inr ⟨g', hg'', s, hgs, hps⟩
    | some s =>
      simp only [hid] at h
      cases hpi : pyInt s with
      | none => simp [hpi] at h
      | some k' =>
        simp only [hpi] at h
        simp only [exbind_ok, exbind_ok'] at h
        obtain ⟨v, hv, h⟩ := h
        rw [ih h]
        by_cases hk : k = k'
        · subst hk
          rw [alookup_dictInsert_self]
          simp only [Option.isSome_some, true_or, true_iff]
          exact Or.inr ⟨g, List.mem_cons_self _ _, s, hid, hpi⟩
        · rw [alookup_dictInsert_ne _ _ _ _ hk]
          constructor
          · rintro (ha | ⟨g', hg', hs⟩)
            · exact Or.inl ha
            · exact Or.inr ⟨g', List.mem_cons_of_mem _ hg', hs⟩
          · rintro (ha | ⟨g', hg', s', hgs, hps⟩)
            · exact Or.inl ha
            · rcases List.mem_cons.mp hg' with rfl | hg''
              · rw [hid] at hgs
                rw [← Option.some.inj hgs] at hps
                rw [hpi] at hps
                exact absurd (Option.some.inj hps).symm hk
              · exact Or.inr ⟨g', hg'', s', hgs, hps⟩

/-- A value stored under a key after the geometry-dict loop was either
already there or is the decode of a remaining child carrying that id. -/
theorem _parse_geometry_dict_aux_values {cs : List Xml} {acc d : List (Int × _GeometryType ℚ)}
    (h : _parse_geometry_dict_aux cs acc = .ok d) (k : Int) (v : _GeometryType ℚ)
    (hl : alookup d k = some v) :
    alookup acc k = some v ∨
      ∃ g ∈ cs, (∃ s, g.get "id" = some s ∧ pyInt s = some k) ∧
        _parse_geometry_element g = .ok v := by
  induction cs generalizing acc with
  | nil =>
    simp only [_parse_geometry_dict_aux, Except.ok.injEq] at h
    subst h; exact Or.inl hl
  | cons g rest ih =>
    unfold _parse_geometry_dict_aux at h
    cases hid : g.get "id" with
    | none =>
      simp only [hid] at h
      rcases ih h with ha | ⟨g', hg', hs, hdec⟩
      · exact Or.inl ha
      · exact Or.inr ⟨g', List.mem_cons_of_mem _ hg', hs, hdec⟩
    | some s =>
      simp only [hid] at h
      cases hpi : pyInt s with
      | none => simp [hpi] at h
      | some k' =>
        simp only [hpi] at h
        simp only [exbind_ok, exbind_ok'] at h
        obtain ⟨w, hw, h⟩ := h
        rcases ih h with ha | ⟨g', hg', hs, hdec⟩
        · by_cases hk : k = k'
          · subst hk
            rw [alookup_dictInsert_self] at ha
            exact Or.inr ⟨g, List.mem_cons_self _ _, ⟨s, hid, hpi⟩,
              (Option.some.inj ha) ▸ hw⟩
          · rw [alookup_dictInsert_ne _ _ _ _ hk] at ha
            exact Or.inl ha
        · exact Or.inr ⟨g', List.mem_cons_of_mem _ hg', hs, hdec⟩

/-- A decoded element of a child list is a member of the decoded list. -/
theorem forall2_decode_mem {cs : List Xml} {gs : List (_GeometryType ℚ)}
    (hf : List.Forall₂ (fun g v => _parse_geometry_element g = .ok v) cs gs)
    {g : Xml} {v : _GeometryType ℚ} (hg : g ∈ cs)
    (hv : _parse_geometry_element g = .ok v) : v ∈ gs := by
  induction hf with
  | nil => cases hg
  | cons hr _ ih =>
    rcases List.mem_cons.mp hg with rfl | hg'
    · exact (Except.ok.inj (hr.symm.trans hv)) ▸ List.mem_cons_self _ _
    · exact List.mem_cons_of_mem _ (ih hg')

/-- Every key of the mapping built by the scan loop was already a key or
is the name of one of the remaining `<Object>` elements. -/
theorem read_sketches_from_xml_aux_keys {objs : List Xml} {names : List String}
    {acc m : List (String × Sketch)}
    (h : read_sketches_from_xml_aux objs names acc = .ok m) (nm : String)
    (hl : (alookup m nm).isSome = true) :
    (alookup acc nm).isSome = true ∨
      ∃ obj ∈ objs, (obj.get "name").getD "" = nm := by
  induction objs generalizing acc with
  | nil =>
    simp only [read_sketches_from_xml_aux, Except.ok.injEq] at h
    subst h; exact Or.inl hl
  | cons obj rest ih =>
    simp only [read_sketches_from_xml_aux] at h
    by_cases hn : ((obj.get "name").getD "") ∈ names
    · rw [if_pos hn] at h
      simp only [exbind_ok, exbind_ok'] at h
      obtain ⟨sk, _, h⟩ := h
      rcases ih h with hacc | ⟨o, ho, hname⟩
      · by_cases hnm : nm = (obj.get "name").getD ""
        · exact Or.inr ⟨obj, List.mem_cons_self _ _, hnm.symm⟩
        · rw [alookup_dictInsert_ne _ _ _ _ hnm] at hacc
          exact Or.inl hacc
      · exact Or.inr ⟨o, List.mem_cons_of_mem _ ho, hname⟩
    · rw [if_neg hn] at h
      rcases ih h with hacc | ⟨o, ho, hname⟩
      · exact Or.inl hacc
      · exact Or.inr ⟨o, List.mem_cons_of_mem _ ho, hname⟩

/-! ## Concrete documents used as inputs -/

/-- A document whose object table names the sketch `S` but whose
`<ObjectData>` block holds no object data for it. -/
def C2doc : Xml :=
  Xml.elem "Document" []
    [Xml.elem "Objects" []
      [Xml.elem "Object" [("type", "Sketcher::SketchObject"), ("name", "S")] []],
     Xml.elem "ObjectData" [] []]

/-- A document whose sketch `S` has an object-data block (without a
`<Properties>` element). -/
def C2docPresent : Xml :=
  Xml.elem "Document" []
    [Xml.elem "Objects" []
      [Xml.elem "Object" [("type", "Sketcher::SketchObject"), ("name", "S")] []],
     Xml.elem "ObjectData" []
      [Xml.elem "Object" [("name", "S")] []]]

/-- A document containing a geometry node with the unrecognised type tag
`Part::Bogus`. -/
def C4doc : Xml :=
  Xml.elem "Document" []
    [Xml.elem "Objects" []
      [Xml.elem "Object" [("type", "Sketcher::SketchObject"), ("name", "S")] []],
     Xml.elem "ObjectData" []
      [Xml.elem "Object" [("name", "S")]
        [Xml.elem "Properties" []
          [Xml.elem "Property" [("name", "Geometry")]
            [Xml.elem "GeometryList" []
              [Xml.elem "Geometry" [("type", "Part::Bogus")] []]]]]]]

/-- An `ExternalGeo` property holding two construction line segments with
stored ids `-1` and `-2` (the H and V axes of the test document). -/
def extGeoProp : Xml :=
  Xml.elem "Property" [("name", "ExternalGeo")]
    [Xml.elem "GeometryList" [("count", "2")]
      [Xml.elem "Geometry" [("type", "Part::GeomLineSegment"), ("id", "-1")]
        [Xml.elem "Construction" [("value", "1")] [],
         Xml.elem "LineSegment"
           [("StartX", "0"), ("StartY", "0"), ("StartZ", "0"),
            ("EndX", "1"), ("EndY", "0"), ("EndZ", "0")] []],
       Xml.elem "Geometry" [("type", "Part::GeomLineSegment"), ("id", "-2")]
        [Xml.elem "Construction" [("value", "1")] [],
         Xml.elem "LineSegment"
           [("StartX", "0"), ("StartY", "0"), ("StartZ", "0"),
            ("EndX", "0"), ("EndY", "1"), ("EndZ", "0")] []]]]

/-- The decoded sequence `extGeoProp` yields. -/
def extGeoSeq : List (_GeometryType ℚ) :=
  [.lineSegment ⟨⟨0, 0, 0⟩, ⟨1, 0, 0⟩, true⟩,
   .lineSegment ⟨⟨0, 0, 0⟩, ⟨0, 1, 0⟩, true⟩]

/-- The decoded id-keyed map `extGeoProp` yields. -/
def extGeoMap : List (Int × _GeometryType ℚ) :=
  [(-1, .lineSegment ⟨⟨0, 0, 0⟩, ⟨1, 0, 0⟩, true⟩),
   (-2, .lineSegment ⟨⟨0, 0, 0⟩, ⟨0, 1, 0⟩, true⟩)]

/-! ## Claim theorems -/

/-- C1: the claim says `_parse_sketch_object` returns a Sketch carrying
an external-geometry map.  The code instead passes the keyword
`ExternalGeoDict` to the `Sketch` dataclass constructor, which declares
no such field, so assembling any sketch object that has a `<Properties>`
element raises `TypeError`; no Sketch (with or without the map) is
produced. -/
theorem C1_assembler_raises_on_external_geo_dict :
    _parse_sketch_object
        (Xml.elem "Object" [("name", "Sketch")] [Xml.elem "Properties" [] []]) "Sketch"
      = .error (.unexpectedKeyword "ExternalGeoDict") ∧
    "ExternalGeoDict" ∈ _parse_sketch_object_kwargs ∧
    "ExternalGeoDict" ∉ Sketch.fieldNames :=
  ⟨rfl, by decide, by decide⟩

/-- C2 (amended): a name that appears in the result mapping of
`read_sketches_from_xml` always comes from an `<Object>` element of the
`<ObjectData>` block; a named sketch whose object-data block is entirely
absent is therefore omitted from the mapping (not represented by an empty
Sketch). -/
theorem C2_absent_object_data_block_omits_name :
    ∀ (root : Xml) (m : List (String × Sketch)) (nm : String),
      read_sketches_from_xml root = .ok m →
      (alookup m nm).isSome = true →
      ∃ obj ∈ objectDataObjects root, (obj.get "name").getD "" = nm := by
  intro root m nm h hl
  unfold read_sketches_from_xml at h
  by_cases hempty : (_sketch_object_names root).isEmpty
  · rw [if_pos hempty] at h
    rw [← Except.ok.inj h] at hl
    simp [alookup] at hl
  · rw [if_neg hempty] at h
    cases hod : root.find "ObjectData" with
    | none =>
      simp only [hod] at h
      rw [← Except.ok.inj h] at hl
      simp [alookup] at hl
    | some od =>
      simp only [hod] at h
      rcases read_sketches_from_xml_aux_keys h nm hl with hacc | ⟨obj, ho, hname⟩
      · simp [alookup] at hacc
      · refine ⟨obj, ?_, hname⟩
        unfold objectDataObjects
        rw [hod]
        exact ho

/-- C2 counterexample: in `C2doc` the object table names the sketch `S`,
its object-data block is absent, and the scan returns the empty mapping —
it does not contain an empty Sketch under `S` as the claim states. -/
theorem C2_counterexample_name_not_in_mapping :
    "S" ∈ _sketch_object_names C2doc ∧
    read_sketches_from_xml C2doc = .ok [] ∧
    alookup ([] : List (String × Sketch)) "S" = Option.none :=
  ⟨by decide, rfl, rfl⟩

/-- Witness for the amended C2 theorem at a concrete document. -/
theorem C2_absent_object_data_block_omits_name_witness :
    read_sketches_from_xml C2docPresent = .ok [("S", { Name := "S" })] ∧
    (alookup [("S", ({ Name := "S" } : Sketch))] "S").isSome = true ∧
    ∃ obj ∈ objectDataObjects C2docPresent, (obj.get "name").getD "" = "S" :=
  ⟨rfl, rfl, C2_absent_object_data_block_omits_name C2docPresent [("S", { Name := "S" })] "S" rfl rfl⟩

/-- C4: an unrecognised geometry type tag makes `_parse_geometry_element`
raise the unknown-geometry-type error, and through the fail-fast
propagation the whole document scan returns an error instead of any
(partial) mapping. -/
theorem C4_unknown_geometry_type_aborts_scan :
    (∀ g : Xml, (g.get "type").getD "" ∉ knownGeometryTags →
      _parse_geometry_element g
        = .error (.unknownGeometryType ((g.get "type").getD ""))) ∧
    read_sketches_from_xml C4doc = .error (.unknownGeometryType "Part::Bogus") := by
  constructor
  · intro g h
    simp only [knownGeometryTags, List.mem_cons, List.not_mem_nil, or_false,
      not_or] at h
    obtain ⟨h1, h2, h3, h4, h5, h6, h7, h8, h9, h10, h11, h12⟩ := h
    simp only [_parse_geometry_element]
    rw [if_neg h1, if_neg h2, if_neg h3, if_neg h4, if_neg h5, if_neg h6,
      if_neg h7, if_neg h8, if_neg h9, if_neg h10, if_neg h11, if_neg h12]
  · rfl

/-- Witness for the universal part of the C4 theorem at the tag
`Part::Bogus`. -/
theorem C4_unknown_geometry_type_aborts_scan_witness :
    ((Xml.elem "Geometry" [("type", "Part::Bogus")] []).get "type").getD ""
        ∉ knownGeometryTags ∧
    _parse_geometry_element (Xml.elem "Geometry" [("type", "Part::Bogus")] [])
        = .error (.unknownGeometryType "Part::Bogus") :=
  ⟨by decide,
   C4_unknown_geometry_type_aborts_scan.1
     (Xml.elem "Geometry" [("type", "Part::Bogus")] []) (by decide)⟩

/-- C9: the container path looks up the `Document.xml` entry and hands
its document to the byte-stream path unchanged, so both paths produce the
identical name-to-Sketch mapping. -/
theorem C9_container_path_equals_xml_path :
    ∀ (archive : List (String × Xml)) (doc : Xml),
      alookup archive "Document.xml" = some doc →
      read_sketches archive = read_sketches_from_xml doc := by
  intro archive doc h
  simp [read_sketches, h]

/-- Witness for the C9 theorem at a concrete one-entry archive. -/
theorem C9_container_path_equals_xml_path_witness :
    alookup [("Document.xml", Xml.elem "Document" [] [])] "Document.xml"
        = some (Xml.elem "Document" [] []) ∧
    read_sketches [("Document.xml", Xml.elem "Document" [] [])]
        = read_sketches_from_xml (Xml.elem "Document" [] []) :=
  ⟨rfl, C9_container_path_equals_xml_path _ _ rfl⟩

/-- C3: the external-geometry sequence is the in-order decode of every
`<Geometry>` child, while the id-keyed map holds exactly the children
that carry an explicit `id` attribute, keyed by the stored id; a child
without an id is absent from the map but its decode is still a member of
the sequence. -/
theorem C3_external_geometry_map_and_sequence :
    ∀ (prop_el : Xml) (gs : List (_GeometryType ℚ)) (d : List (Int × _GeometryType ℚ)),
      _parse_geometry_list prop_el = .ok gs →
      _parse_geometry_dict prop_el = .ok d →
      List.Forall₂ (fun g v => _parse_geometry_element g = .ok v)
          (geomChildren prop_el) gs ∧
      (∀ k : Int, (alookup d k).isSome = true ↔
        ∃ g ∈ geomChildren prop_el, ∃ s, g.get "id" = some s ∧ pyInt s = some k) ∧
      (∀ k v, alookup d k = some v →
        ∃ g ∈ geomChildren prop_el,
          (∃ s, g.get "id" = some s ∧ pyInt s = some k) ∧
          _parse_geometry_element g = .ok v ∧ v ∈ gs) := by
  intro prop_el gs d hl hd
  unfold _parse_geometry_list at hl
  unfold _parse_geometry_dict at hd
  unfold geomChildren
  cases hgl : prop_el.find "GeometryList" with
  | none =>
    simp only [hgl] at hl hd
    rw [← Except.ok.inj hl, ← Except.ok.inj hd]
    refine ⟨List.Forall₂.nil, ?_, ?_⟩
    · intro k
      simp [alookup]
    · intro k v hkv
      simp [alookup] at hkv
  | some gl =>
    simp only [hgl] at hl hd
    obtain ⟨gs', hgs, hf⟩ := _parse_geometry_list_aux_ok hl
    simp only [List.nil_append] at hgs
    subst hgs
    refine ⟨hf, ?_, ?_⟩
    · intro k
      rw [_parse_geometry_dict_aux_keys hd k]
      simp [alookup]
    · intro k v hkv
      rcases _parse_geometry_dict_aux_values hd k v hkv with ha | ⟨g, hg, hs, hdec⟩
      · simp [alookup] at ha
      · exact ⟨g, hg, hs, hdec, forall2_decode_mem hf hg hdec⟩

/-- Witness for the C3 theorem at a two-element external-geometry
property with stored ids `-1` and `-2`. -/
theorem C3_external_geometry_map_and_sequence_witness :
    _parse_geometry_list extGeoProp = .ok extGeoSeq ∧
    _parse_geometry_dict extGeoProp = .ok extGeoMap ∧
    (List.Forall₂ (fun g v => _parse_geometry_element g = .ok v)
        (geomChildren extGeoProp) extGeoSeq ∧
      (∀ k : Int, (alookup extGeoMap k).isSome = true ↔
        ∃ g ∈ geomChildren extGeoProp, ∃ s, g.get "id" = some s ∧ pyInt s = some k) ∧
      (∀ k v, alookup extGeoMap k = some v →
        ∃ g ∈ geomChildren extGeoProp,
          (∃ s, g.get "id" = some s ∧ pyInt s = some k) ∧
          _parse_geometry_element g = .ok v ∧ v ∈ extGeoSeq)) :=
  ⟨by decide, by decide,
   C3_external_geometry_map_and_sequence extGeoProp extGeoSeq extGeoMap
     (by decide) (by decide)⟩

/-- C5: constraint type codes 0–19 all resolve through the 20-entry
enumeration (code 0 meaning "none"); an out-of-range code makes the
decoder raise the hard unknown-constraint-type error; and every
successfully decoded constraint's type string is the table entry for its
in-range code. -/
theorem C5_constraint_type_code_enumeration :
    (∀ n : Int, 0 ≤ n → n ≤ 19 → (ConstraintType.ofInt n).isSome = true) ∧
    (ConstraintType.ofInt 0 = some .NONE ∧ CONSTRAINT_TYPE_NAMES .NONE = "None") ∧
    (∀ (c_el : Xml) (n : Int), _int c_el "Type" 0 = .ok n → n < 0 ∨ 19 < n →
      _parse_constraint c_el = .error (.unknownConstraintType n)) ∧
    (∀ (c_el : Xml) (c : Constraint), _parse_constraint c_el = .ok c →
      ∃ n t, _int c_el "Type" 0 = .ok n ∧ 0 ≤ n ∧ n ≤ 19 ∧
        ConstraintType.ofInt n = some t ∧ c.«Type» = CONSTRAINT_TYPE_NAMES t) := by
  refine ⟨?_, ⟨rfl, rfl⟩, ?_, ?_⟩
  · intro n h1 h2
    interval_cases n <;> rfl
  · intro c_el n h hrange
    unfold _parse_constraint
    simp only [h, exbind_ok_left]
    simp only [lookupConstraintType_err (constraintType_ofInt_eq_none hrange),
      exbind_err_left]
  · intro c_el c h
    obtain ⟨ti, te, fpn, spn, tpn, hti, hte, hty, _⟩ := _parse_constraint_ok_inv h
    obtain ⟨h0, h19⟩ := constraintType_ofInt_range hte
    exact ⟨ti, te, hti, h0, h19, hte, hty⟩

/-- A `<Constrain>` element with no attributes. -/
def emptyConstrain : Xml := Xml.elem "Constrain" [] []

/-- The constraint record consisting entirely of the documented
defaults. -/
def defaultConstraint : Constraint :=
  { «Type» := "None", Name := "", Value := 0, First := -2000,
    FirstPos := PointPos.none, Second := -2000, SecondPos := PointPos.none,
    Third := -2000, ThirdPos := PointPos.none, Driving := true,
    InVirtualSpace := false, IsActive := true, LabelDistance := 10,
    LabelPosition := 0 }

/-- Witness for the C5 theorem: code 25 is rejected with the hard error,
code 6 decodes to the table name `Distance`. -/
theorem C5_constraint_type_code_enumeration_witness :
    _int (Xml.elem "Constrain" [("Type", "25")] []) "Type" 0 = .ok 25 ∧
    _parse_constraint (Xml.elem "Constrain" [("Type", "25")] [])
      = .error (.unknownConstraintType 25) ∧
    (∃ n t, _int (Xml.elem "Constrain" [("Type", "6")] []) "Type" 0 = .ok n ∧
      0 ≤ n ∧ n ≤ 19 ∧ ConstraintType.ofInt n = some t ∧
      ({ defaultConstraint with «Type» := "Distance" } : Constraint).«Type»
        = CONSTRAINT_TYPE_NAMES t) :=
  ⟨by decide,
   C5_constraint_type_code_enumeration.2.2.1
     (Xml.elem "Constrain" [("Type", "25")] []) 25 (by decide) (by decide),
   C5_constraint_type_code_enumeration.2.2.2
     (Xml.elem "Constrain" [("Type", "6")] [])
     { defaultConstraint with «Type» := "Distance" } (by decide)⟩

/-- C6: every absent optional constraint attribute is filled with its
documented default and raises no error: reference fields default to the
sentinel −2000 and their point-positions to "none"; `Driving` and
`IsActive` are true exactly when their attribute is absent or `"1"`,
`InVirtualSpace` exactly when its attribute is present with value `"1"`;
`Value` and `LabelPosition` default 0.0, `LabelDistance` 10.0.  An
attribute-less constraint node decodes, without error, to the all-default
record. -/
theorem C6_constraint_defaults :
    (∀ (c_el : Xml) (c : Constraint), _parse_constraint c_el = .ok c →
      (c_el.get "First" = Option.none → c.First = -2000) ∧
      (c_el.get "FirstPos" = Option.none → c.FirstPos = PointPos.none) ∧
      (c_el.get "Second" = Option.none → c.Second = -2000) ∧
      (c_el.get "SecondPos" = Option.none → c.SecondPos = PointPos.none) ∧
      (c_el.get "Third" = Option.none → c.Third = -2000) ∧
      (c_el.get "ThirdPos" = Option.none → c.ThirdPos = PointPos.none) ∧
      (c.Driving = true ↔
        (c_el.get "IsDriving" = Option.none ∨ c_el.get "IsDriving" = some "1")) ∧
      (c.InVirtualSpace = true ↔ c_el.get "IsInVirtualSpace" = some "1") ∧
      (c.IsActive = true ↔
        (c_el.get "IsActive" = Option.none ∨ c_el.get "IsActive" = some "1")) ∧
      (c_el.get "Value" = Option.none → c.Value = 0) ∧
      (c_el.get "LabelPosition" = Option.none → c.LabelPosition = 0) ∧
      (c_el.get "LabelDistance" = Option.none → c.LabelDistance = 10)) ∧
    (∀ tag children, _parse_constraint (Xml.elem tag [] children)
      = .ok defaultConstraint) := by
  constructor
  · intro c_el c h
    obtain ⟨ti, te, fpn, spn, tpn, hti, hte, hty, hnm, hv, hf1, hfpn, hfp,
      hs2, hspn, hsp, ht3, htpn, htp, hdr, hvs, hac, hld, hlp⟩ :=
      _parse_constraint_ok_inv h
    refine ⟨?_, ?_, ?_, ?_, ?_, ?_, ?_, ?_, ?_, ?_, ?_, ?_⟩
    · intro hg
      exact (Except.ok.inj ((_int_absent c_el "First" (-2000) hg).symm.trans hf1)).symm
    · intro hg
      have hz : fpn = 0 :=
        (Except.ok.inj ((_int_absent c_el "FirstPos" 0 hg).symm.trans hfpn)).symm
      rw [hz] at hfp
      exact (Option.some.inj hfp).symm
    · intro hg
      exact (Except.ok.inj ((_int_absent c_el "Second" (-2000) hg).symm.trans hs2)).symm
    · intro hg
      have hz : spn = 0 :=
        (Except.ok.inj ((_int_absent c_el "SecondPos" 0 hg).symm.trans hspn)).symm
      rw [hz] at hsp
      exact (Option.some.inj hsp).symm
    · intro hg
      exact (Except.ok.inj ((_int_absent c_el "Third" (-2000) hg).symm.trans ht3)).symm
    · intro hg
      have hz : tpn = 0 :=
        (Except.ok.inj ((_int_absent c_el "ThirdPos" 0 hg).symm.trans htpn)).symm
      rw [hz] at htp
      exact (Option.some.inj htp).symm
    · rw [hdr]
      cases hg : c_el.get "IsDriving" <;> simp [hg]
    · rw [hvs]
      cases hg : c_el.get "IsInVirtualSpace" <;> simp [hg]
    · rw [hac]
      cases hg : c_el.get "IsActive" <;> simp [hg]
    · intro hg
      exact (Except.ok.inj ((_float_absent c_el "Value" 0 hg).symm.trans hv)).symm
    · intro hg
      exact (Except.ok.inj ((_float_absent c_el "LabelPosition" 0 hg).symm.trans hlp)).symm
    · intro hg
      exact (Except.ok.inj ((_float_absent c_el "LabelDistance" 10 hg).symm.trans hld)).symm
  · intro tag children
    rfl

/-- Witness for the C6 theorem at the attribute-less constraint node. -/
theorem C6_constraint_defaults_witness :
    _parse_constraint emptyConstrain = .ok defaultConstraint ∧
    defaultConstraint.First = -2000 ∧
    defaultConstraint.FirstPos = PointPos.none ∧
    (defaultConstraint.Driving = true ↔
      (emptyConstrain.get "IsDriving" = Option.none ∨
        emptyConstrain.get "IsDriving" = some "1")) :=
  ⟨rfl,
   (C6_constraint_defaults.1 emptyConstrain defaultConstraint rfl).1 rfl,
   (C6_constraint_defaults.1 emptyConstrain defaultConstraint rfl).2.1 rfl,
   (C6_constraint_defaults.1 emptyConstrain defaultConstraint rfl).2.2.2.2.2.2.1⟩

/-- C10: a `FirstPos`/`SecondPos`/`ThirdPos` attribute whose integer
value lies outside `{0, 1, 2, 3}` makes the constraint decoder raise (a
failure mode distinct from the three documented error kinds, shown by the
concrete `badPointPos` evaluation), and every successfully decoded
constraint's point-position codes were in range, so each point-position
field is one of none/start/end/mid. -/
theorem C10_point_pos_range :
    (∀ (c_el : Xml) (s : String) (n : Int) (c : Constraint),
      c_el.get "FirstPos" = some s → pyInt s = some n → n < 0 ∨ 3 < n →
      _parse_constraint c_el ≠ .ok c) ∧
    (∀ (c_el : Xml) (s : String) (n : Int) (c : Constraint),
      c_el.get "SecondPos" = some s → pyInt s = some n → n < 0 ∨ 3 < n →
      _parse_constraint c_el ≠ .ok c) ∧
    (∀ (c_el : Xml) (s : String) (n : Int) (c : Constraint),
      c_el.get "ThirdPos" = some s → pyInt s = some n → n < 0 ∨ 3 < n →
      _parse_constraint c_el ≠ .ok c) ∧
    (∀ (c_el : Xml) (c : Constraint), _parse_constraint c_el = .ok c →
      ∃ n1 n2 n3,
        _int c_el "FirstPos" 0 = .ok n1 ∧ 0 ≤ n1 ∧ n1 ≤ 3 ∧
          PointPos.ofInt n1 = some c.FirstPos ∧
        _int c_el "SecondPos" 0 = .ok n2 ∧ 0 ≤ n2 ∧ n2 ≤ 3 ∧
          PointPos.ofInt n2 = some c.SecondPos ∧
        _int c_el "ThirdPos" 0 = .ok n3 ∧ 0 ≤ n3 ∧ n3 ≤ 3 ∧
          PointPos.ofInt n3 = some c.ThirdPos) ∧
    _parse_constraint (Xml.elem "Constrain" [("Type", "1"), ("FirstPos", "7")] [])
      = .error (.badPointPos 7) := by
  refine ⟨?_, ?_, ?_, ?_, rfl⟩
  · intro c_el s n c hg hp hrange hok
    obtain ⟨ti, te, fpn, spn, tpn, hti, hte, hty, hnm, hv, hf1, hfpn, hfp, _⟩ :=
      _parse_constraint_ok_inv hok
    have hn : fpn = n :=
      (Except.ok.inj ((_int_present c_el "FirstPos" 0 n s hg hp).symm.trans hfpn)).symm
    rw [hn, pointPos_ofInt_eq_none hrange] at hfp
    exact Option.noConfusion hfp
  · intro c_el s n c hg hp hrange hok
    obtain ⟨ti, te, fpn, spn, tpn, hti, hte, hty, hnm, hv, hf1, hfpn, hfp,
      hs2, hspn, hsp, _⟩ := _parse_constraint_ok_inv hok
    have hn : spn = n :=
      (Except.ok.inj ((_int_present c_el "SecondPos" 0 n s hg hp).symm.trans hspn)).symm
    rw [hn, pointPos_ofInt_eq_none hrange] at hsp
    exact Option.noConfusion hsp
  · intro c_el s n c hg hp hrange hok
    obtain ⟨ti, te, fpn, spn, tpn, hti, hte, hty, hnm, hv, hf1, hfpn, hfp,
      hs2, hspn, hsp, ht3, htpn, htp, _⟩ := _parse_constraint_ok_inv hok
    have hn : tpn = n :=
      (Except.ok.inj ((_int_present c_el "ThirdPos" 0 n s hg hp).symm.trans htpn)).symm
    rw [hn, pointPos_ofInt_eq_none hrange] at htp
    exact Option.noConfusion htp
  · intro c_el c h
    obtain ⟨ti, te, fpn, spn, tpn, hti, hte, hty, hnm, hv, hf1, hfpn, hfp,
      hs2, hspn, hsp, ht3, htpn, htp, _⟩ := _parse_constraint_ok_inv h
    obtain ⟨hf0, hf3⟩ := pointPos_ofInt_range hfp
    obtain ⟨hsp0, hsp3⟩ := pointPos_ofInt_range hsp
    obtain ⟨htp0, htp3⟩ := pointPos_ofInt_range htp
    exact ⟨fpn, spn, tpn, hfpn, hf0, hf3, hfp, hspn, hsp0, hsp3, hsp,
      htpn, htp0, htp3, htp⟩

/-- Witness for the C10 theorem: the out-of-range code 7 prevents a
successful decode, and the in-range characterisation holds at the
attribute-less node. -/
theorem C10_point_pos_range_witness :
    _parse_constraint (Xml.elem "Constrain" [("Type", "1"), ("FirstPos", "7")] [])
      ≠ .ok defaultConstraint ∧
    (∃ n1 n2 n3,
      _int emptyConstrain "FirstPos" 0 = .ok n1 ∧ 0 ≤ n1 ∧ n1 ≤ 3 ∧
        PointPos.ofInt n1 = some defaultConstraint.FirstPos ∧
      _int emptyConstrain "SecondPos" 0 = .ok n2 ∧ 0 ≤ n2 ∧ n2 ≤ 3 ∧
        PointPos.ofInt n2 = some defaultConstraint.SecondPos ∧
      _int emptyConstrain "ThirdPos" 0 = .ok n3 ∧ 0 ≤ n3 ∧ n3 ≤ 3 ∧
        PointPos.ofInt n3 = some defaultConstraint.ThirdPos) :=
  ⟨C10_point_pos_range.1
     (Xml.elem "Constrain" [("Type", "1"), ("FirstPos", "7")] []) "7" 7
     defaultConstraint (by decide) (by decide) (by decide),
   C10_point_pos_range.2.2.2.1 emptyConstrain defaultConstraint rfl⟩

/-- The arc of circle from the test document `Misc.FCStd`
(`AngleXU = 0`, `StartAngle = 0`). -/
noncomputable def arcMisc : GeomArcOfCircle ℝ :=
  { Center := ⟨83.8837494467609588, 68.6823157097693269, 0⟩,
    Radius := 36.6331336625265180, AngleXU := 0, Axis := ⟨0, 0, 1⟩,
    StartAngle := 0, EndAngle := 2.9080758210602404, Construction := false }

/-- The ellipse of the spec's focus example. -/
noncomputable def ellMisc : GeomEllipse ℝ :=
  { Center := ⟨0, 0, 0⟩, MajorRadius := 5, MinorRadius := 3, AngleXU := 0,
    Axis := ⟨0, 0, 1⟩, Construction := false }

/-- C7: an arc of circle's derived start (resp. end) point is
`Center + (R·cos(AngleXU+φ), R·sin(AngleXU+φ)·sign, 0)` with
`φ = StartAngle` (resp. `EndAngle`) and `sign = +1` iff the normal axis
z-component is ≥ 0 — the orientation angle is folded additively into the
parameter and the mirror sign multiplies only the sine term; with
`AngleXU = 0` and `StartAngle = 0` the start point is
`(Center.x + Radius, Center.y, Center.z)`. -/
theorem C7_arc_endpoints :
    (∀ a : GeomArcOfCircle ℝ,
      a.StartPoint =
        ⟨a.Center.x + a.Radius * Real.cos (a.AngleXU + a.StartAngle),
         a.Center.y + a.Radius * Real.sin (a.AngleXU + a.StartAngle) *
           (if 0 ≤ a.Axis.z then 1 else -1),
         a.Center.z⟩) ∧
    (∀ a : GeomArcOfCircle ℝ,
      a.EndPoint =
        ⟨a.Center.x + a.Radius * Real.cos (a.AngleXU + a.EndAngle),
         a.Center.y + a.Radius * Real.sin (a.AngleXU + a.EndAngle) *
           (if 0 ≤ a.Axis.z then 1 else -1),
         a.Center.z⟩) ∧
    arcMisc.StartPoint =
      ⟨(83.8837494467609588 : ℝ) + 36.6331336625265180, 68.6823157097693269, 0⟩ := by
  refine ⟨fun a => rfl, fun a => rfl, ?_⟩
  simp [arcMisc, GeomArcOfCircle.StartPoint, _arc_point]

/-- C8: an ellipse's derived focal distance is
`sqrt |MajorRadius² − MinorRadius²|` and its foci are
`Center ± focal·(cos AngleXU, sin AngleXU)` with the z-coordinate
unchanged; the normal axis plays no role in either (no mirroring); and
`MajorRadius = 5`, `MinorRadius = 3`, `AngleXU = 0`, `Center = (0,0,0)`
give `Focal = 4`, `Focus1 = (4,0,0)`, `Focus2 = (−4,0,0)`. -/
theorem C8_ellipse_foci :
    (∀ e : GeomEllipse ℝ,
      e.Focal = Real.sqrt |e.MajorRadius ^ 2 - e.MinorRadius ^ 2|) ∧
    (∀ e : GeomEllipse ℝ,
      e.Focus1 = ⟨e.Center.x + e.Focal * Real.cos e.AngleXU,
        e.Center.y + e.Focal * Real.sin e.AngleXU, e.Center.z⟩ ∧
      e.Focus2 = ⟨e.Center.x - e.Focal * Real.cos e.AngleXU,
        e.Center.y - e.Focal * Real.sin e.AngleXU, e.Center.z⟩) ∧
    (∀ (e : GeomEllipse ℝ) (ax : Vector ℝ),
      ({ e with Axis := ax } : GeomEllipse ℝ).Focal = e.Focal ∧
      ({ e with Axis := ax } : GeomEllipse ℝ).Focus1 = e.Focus1 ∧
      ({ e with Axis := ax } : GeomEllipse ℝ).Focus2 = e.Focus2) ∧
    (ellMisc.Focal = 4 ∧ ellMisc.Focus1 = ⟨4, 0, 0⟩ ∧
      ellMisc.Focus2 = ⟨-4, 0, 0⟩) := by
  have hfocal : ellMisc.Focal = 4 := by
    unfold ellMisc GeomEllipse.Focal
    rw [show |(5 : ℝ) ^ 2 - 3 ^ 2| = 4 ^ 2 by norm_num]
    exact Real.sqrt_sq (by norm_num)
  refine ⟨fun e => rfl, fun e => ⟨rfl, rfl⟩, fun e ax => ⟨rfl, rfl, rfl⟩,
    hfocal, ?_, ?_⟩
  · unfold GeomEllipse.Focus1
    rw [hfocal]
    norm_num [ellMisc]
  · unfold GeomEllipse.Focus2
    rw [hfocal]
    norm_num [ellMisc]

end FCSR
